import Mathlib

/-!
Shallow embedding of `src/sample_api.py` and `src/sample_api_refactored.py`
from the repository `gvasels/personal-music-searchengine`, together with
proofs of the behavioural properties stated in the specification.

Python dictionaries whose values are either integers or strings are modelled
as association lists `List (String × Value)`; lookup takes the first binding
for a key (Python dict literals and insertions never produce duplicate keys,
and the store insertion below preserves that). Python `range(a, b)` is
modelled on `Int` so that negative arguments behave exactly as in Python.
-/

set_option autoImplicit false

/-- Value of a Python dictionary entry appearing in this module: every value
constructed by the source is either an `int` or a `str`. -/
inductive Value where
  | vint : Int → Value
  | vstr : String → Value
deriving DecidableEq, Repr

/-- Dictionary-shaped record of `sample_api.py`: an association list from
string keys to values, matching a Python `Dict`. -/
abbrev Dict := List (String × Value)

/-- Lookup in an association list, returning the first binding of the key;
models both Python `d[k]` / `d.get(k)` (presence as `isSome`) and `k in d`. -/
def alookup {α β : Type} [DecidableEq α] (k : α) : List (α × β) → Option β
  | [] => none
  | (k', v) :: rest => if k' = k then some v else alookup k rest

/-- Model of Python `range(a, b)`: the integers `a, a+1, …, b-1`, empty when
`b ≤ a`. -/
def pythonRange (a b : Int) : List Int :=
  (List.range (b - a).toNat).map (fun n => a + Int.ofNat n)

namespace SampleApi

/-- Embedding of `get_users` from `sample_api.py`: builds one dictionary
`{"id": i, "name": f"User {i}"}` for each `i` in `range(offset, offset + limit)`.
Note the `"id"` value is the integer `i` itself, not its string form. -/
def get_users (limit : Int) (offset : Int) : List Dict :=
  (pythonRange offset (offset + limit)).map
    (fun i => [("id", Value.vint i), ("name", Value.vstr ("User " ++ toString i))])

/-- Embedding of `get_user_by_id` from `sample_api.py`. -/
def get_user_by_id (user_id : String) : Option Dict :=
  if user_id = "not_found" then none
  else some [("id", Value.vstr user_id), ("name", Value.vstr "Test User"),
             ("email", Value.vstr "test@example.com")]

/-- Embedding of `post_create_user` from `sample_api.py`. -/
def post_create_user (name : String) (email : String) : Dict :=
  [("id", Value.vstr "usr_new"), ("name", Value.vstr name), ("email", Value.vstr email)]

/-- Embedding of `validate_input` from `sample_api.py`: false on an empty
mapping (`not data`), false when the loop over `["name", "email"]` finds a
missing key, true otherwise. -/
def validate_input (data : Dict) : Bool :=
  if data.isEmpty then false
  else if (alookup "name" data).isSome = false then false
  else if (alookup "email" data).isSome = false then false
  else true

/-- State of a `UserService` instance: its `self.users` dictionary, keyed by
whatever value `user["id"]` held (an `int` or a `str`). -/
abbrev Store := List (Value × Dict)

/-- Python dictionary assignment `d[k] = v`: replace the value at an existing
key in place, or append a new binding (insertion order preserved). -/
def storeInsert (k : Value) (v : Dict) : Store → Store
  | [] => [(k, v)]
  | (k', v') :: rest => if k' = k then (k, v) :: rest else (k', v') :: storeInsert k v rest

/-- Embedding of `UserService.__init__`: the store starts empty. -/
def initStore : Store := []

/-- Embedding of `UserService.add_user`: `self.users[user["id"]] = user`.
The subscript `user["id"]` raises `KeyError` when the key is missing, which
is modelled by returning `none`. -/
def add_user (user : Dict) (s : Store) : Option Store :=
  match alookup "id" user with
  | none => none
  | some idv => some (storeInsert idv user s)

/-- Embedding of `UserService.get_user`: `self.users.get(user_id)`. The key
is a `Value` because Python does not enforce the `str` annotation; a string
key `k` is passed as `Value.vstr k`. -/
def get_user (user_id : Value) (s : Store) : Option Dict :=
  alookup user_id s

end SampleApi

namespace Refactored

/-- Embedding of the `User` dataclass from `sample_api_refactored.py`; the
`email` field defaults to the empty string. -/
structure User where
  id : String
  name : String
  email : String := ""
deriving DecidableEq, Repr

/-- Embedding of `get_users` from `sample_api_refactored.py`: one
`User(id=str(i), name=f"User {i}")` per `i` in `range(offset, offset + limit)`. -/
def get_users (limit : Int) (offset : Int) : List User :=
  (pythonRange offset (offset + limit)).map
    (fun i => { id := toString i, name := "User " ++ toString i })

/-- Embedding of `get_user_by_id` from `sample_api_refactored.py`. -/
def get_user_by_id (user_id : String) : Option User :=
  if user_id = "not_found" then none
  else some { id := user_id, name := "Test User", email := "test@example.com" }

/-- Embedding of `post_create_user` from `sample_api_refactored.py`. -/
def post_create_user (name : String) (email : String) : User :=
  { id := "usr_new", name := name, email := email }

end Refactored

/-- States of a `UserService` instance reachable by a finite sequence of
`add_user` and `get_user` calls after `__init__`. `get_user` is a pure read
and does not change the state, so only successful `add_user` steps appear. -/
inductive Reachable : SampleApi.Store → Prop where
  | init : Reachable SampleApi.initStore
  | add {s s' : SampleApi.Store} {u : Dict} :
      Reachable s → SampleApi.add_user u s = some s' → Reachable s'

/-- Correspondence stated from the spec's words for the refinement claim: a
dictionary-shaped record and a fixed-field record carry the same `id`, `name`
and `email` field values, where a missing `email` key corresponds to the
record's empty-string default. -/
def dictMatchesUser (d : Dict) (u : Refactored.User) : Prop :=
  alookup "id" d = some (Value.vstr u.id)
  ∧ alookup "name" d = some (Value.vstr u.name)
  ∧ (alookup "email" d = some (Value.vstr u.email)
     ∨ (alookup "email" d = none ∧ u.email = ""))

/-- Variant of `dictMatchesUser` in which the dictionary's `"id"` value is an
integer whose decimal string form equals the record's `id`; this is the
correspondence that actually relates the two `get_users` implementations. -/
def dictMatchesUserIntId (d : Dict) (u : Refactored.User) : Prop :=
  (∃ n : Int, alookup "id" d = some (Value.vint n) ∧ u.id = toString n)
  ∧ alookup "name" d = some (Value.vstr u.name)
  ∧ (alookup "email" d = some (Value.vstr u.email)
     ∨ (alookup "email" d = none ∧ u.email = ""))

/-- Call to the module surface of `sample_api.py`, used to model execution
histories: the three top-level functions plus the two `UserService` methods. -/
inductive ApiCall where
  | getUsers (limit offset : Int)
  | getUserById (user_id : String)
  | postCreateUser (name email : String)
  | storeAdd (user : Dict)
  | storeGet (key : Value)
deriving DecidableEq, Repr

/-- Observable result of one `ApiCall`. `keyError` records the `KeyError`
raised by `add_user` on a record with no `"id"` key. -/
inductive Output where
  | userList : List Dict → Output
  | userOpt : Option Dict → Output
  | userDict : Dict → Output
  | ok : Output
  | keyError : Output
deriving DecidableEq, Repr

/-- Small-step interpreter for `ApiCall` histories over the only mutable
state in the module, a `UserService` store. The three top-level functions of
`sample_api.py` neither read nor write it. -/
def step (s : SampleApi.Store) : ApiCall → SampleApi.Store × Output
  | .getUsers limit offset => (s, .userList (SampleApi.get_users limit offset))
  | .getUserById uid => (s, .userOpt (SampleApi.get_user_by_id uid))
  | .postCreateUser n e => (s, .userDict (SampleApi.post_create_user n e))
  | .storeAdd u =>
    match SampleApi.add_user u s with
    | some s' => (s', .ok)
    | none => (s, .keyError)
  | .storeGet k => (s, .userOpt (SampleApi.get_user k s))

/-- Marks the calls that go to the three top-level functions, as opposed to
the methods of the stateful `UserService`. -/
def pureCall : ApiCall → Bool
  | .storeAdd _ => false
  | .storeGet _ => false
  | _ => true

/-! Helper lemmas about `alookup` and `storeInsert`. -/

namespace SampleApi

theorem alookup_storeInsert_self (k : Value) (v : Dict) (s : Store) :
    alookup k (storeInsert k v s) = some v := by
  induction s with
  | nil => simp [storeInsert, alookup]
  | cons hd tl ih =>
    obtain ⟨k', v'⟩ := hd
    by_cases h : k' = k
    · simp [storeInsert, h, alookup]
    · simp [storeInsert, h, alookup, ih]

theorem alookup_storeInsert_ne (k q : Value) (v : Dict) (s : Store) (h : q ≠ k) :
    alookup q (storeInsert k v s) = alookup q s := by
  have hk : ¬ (k = q) := fun hh => h hh.symm
  induction s with
  | nil => simp [storeInsert, alookup, hk]
  | cons hd tl ih =>
    obtain ⟨k', v'⟩ := hd
    by_cases hkk : k' = k
    · subst hkk
      simp [storeInsert, alookup, hk]
    · simp only [storeInsert, hkk, if_false]
      by_cases hq : k' = q
      · simp [alookup, hq]
      · simp [alookup, hq, ih]

theorem alookup_eq_none_of_not_mem_keys (k : Value) (s : Store)
    (h : k ∉ s.map Prod.fst) : alookup k s = none := by
  induction s with
  | nil => simp [alookup]
  | cons hd tl ih =>
    obtain ⟨k', v'⟩ := hd
    simp only [List.map_cons, List.mem_cons] at h
    push_neg at h
    have hne : ¬ (k' = k) := fun hh => h.1 hh.symm
    simp [alookup, hne, ih h.2]

theorem mem_keys_storeInsert (a k : Value) (v : Dict) (s : Store) :
    a ∈ (storeInsert k v s).map Prod.fst ↔ a = k ∨ a ∈ s.map Prod.fst := by
  induction s with
  | nil => simp [storeInsert]
  | cons hd tl ih =>
    obtain ⟨k', v'⟩ := hd
    by_cases h : k' = k
    · subst h
      simp only [storeInsert, if_true]
      simp only [List.map_cons, List.mem_cons]
      tauto
    · simp only [storeInsert, h, if_false, List.map_cons, List.mem_cons, ih]
      tauto

theorem nodup_keys_storeInsert (k : Value) (v : Dict) (s : Store)
    (h : (s.map Prod.fst).Nodup) : ((storeInsert k v s).map Prod.fst).Nodup := by
  induction s with
  | nil => simp [storeInsert]
  | cons hd tl ih =>
    obtain ⟨k', v'⟩ := hd
    simp only [List.map_cons, List.nodup_cons] at h
    by_cases hk : k' = k
    · subst hk
      simp only [storeInsert, if_true, List.map_cons, List.nodup_cons]
      exact ⟨h.1, h.2⟩
    · simp only [storeInsert, hk, if_false, List.map_cons, List.nodup_cons]
      refine ⟨?_, ih h.2⟩
      rw [mem_keys_storeInsert]
      rintro (rfl | hmem)
      · exact hk rfl
      · exact h.1 hmem

end SampleApi

theorem pythonRange_length (a b : Int) : (pythonRange a b).length = (b - a).toNat := by
  rw [pythonRange, List.length_map, List.length_range]

theorem pythonRange_getElem (a b : Int) (i : Nat) (h : i < (pythonRange a b).length) :
    (pythonRange a b)[i] = a + Int.ofNat i := by
  simp only [pythonRange, List.getElem_map, List.getElem_range]

theorem pythonRange_eq_nil (a b : Int) (h : b ≤ a) : pythonRange a b = [] := by
  rw [pythonRange]
  have h0 : (b - a).toNat = 0 := by omega
  rw [h0]
  rfl

/-- C3: `get_user_by_id` (in both source files) returns an absent result if
and only if `user_id` is the literal `"not_found"`; on any other string it
returns the synthetic record with `id = user_id`, `name = "Test User"`,
`email = "test@example.com"`, and no other error condition exists. -/
theorem C3_get_user_by_id_sentinel (uid : String) :
    (SampleApi.get_user_by_id uid = none ↔ uid = "not_found")
    ∧ (Refactored.get_user_by_id uid = none ↔ uid = "not_found")
    ∧ (uid ≠ "not_found" →
        SampleApi.get_user_by_id uid =
          some [("id", Value.vstr uid), ("name", Value.vstr "Test User"),
                ("email", Value.vstr "test@example.com")]
        ∧ Refactored.get_user_by_id uid =
          some { id := uid, name := "Test User", email := "test@example.com" }) := by
  by_cases h : uid = "not_found" <;>
    simp [SampleApi.get_user_by_id, Refactored.get_user_by_id, h]

/-- Witness for C3 at the concrete input `"alice"`. -/
theorem C3_get_user_by_id_sentinel_witness :
    (SampleApi.get_user_by_id "alice" = none ↔ "alice" = "not_found")
    ∧ (Refactored.get_user_by_id "alice" = none ↔ "alice" = "not_found")
    ∧ ("alice" ≠ "not_found" →
        SampleApi.get_user_by_id "alice" =
          some [("id", Value.vstr "alice"), ("name", Value.vstr "Test User"),
                ("email", Value.vstr "test@example.com")]
        ∧ Refactored.get_user_by_id "alice" =
          some { id := "alice", name := "Test User", email := "test@example.com" }) :=
  C3_get_user_by_id_sentinel "alice"

/-- C4: `validate_input` returns false exactly when the mapping is empty or
lacks the key `"name"` or lacks the key `"email"`; it returns true otherwise,
whatever the values and whatever extra keys are present, and it is total. -/
theorem C4_validate_input_presence (data : Dict) :
    SampleApi.validate_input data = false ↔
      (data = [] ∨ alookup "name" data = none ∨ alookup "email" data = none) := by
  by_cases h1 : data = []
  · simp [SampleApi.validate_input, h1]
  · by_cases h2 : alookup "name" data = none
    · simp [SampleApi.validate_input, List.isEmpty_iff, h1, h2]
    · by_cases h3 : alookup "email" data = none
      · simp [SampleApi.validate_input, List.isEmpty_iff, h1, h2, h3]
      · simp [SampleApi.validate_input, List.isEmpty_iff, h1, h2, h3]

/-- C6: `post_create_user` (in both source files) always succeeds and returns
a record with the fixed id `"usr_new"` and the given `name` and `email`
unchanged; it performs no validation, uniqueness check or persistence. -/
theorem C6_post_create_user_fixed_id (name email : String) :
    alookup "id" (SampleApi.post_create_user name email) = some (Value.vstr "usr_new")
    ∧ alookup "name" (SampleApi.post_create_user name email) = some (Value.vstr name)
    ∧ alookup "email" (SampleApi.post_create_user name email) = some (Value.vstr email)
    ∧ Refactored.post_create_user name email =
        { id := "usr_new", name := name, email := email } := by
  refine ⟨?_, ?_, ?_, rfl⟩ <;> simp [SampleApi.post_create_user, alookup]

/-- C9: for every `limit ≤ 0` and every `offset`, `get_users` in both source
files returns the empty sequence, because `range(offset, offset + limit)` is
empty. -/
theorem C9_get_users_nonpositive_limit (limit offset : Int) (h : limit ≤ 0) :
    SampleApi.get_users limit offset = [] ∧ Refactored.get_users limit offset = [] := by
  have hr : pythonRange offset (offset + limit) = [] :=
    pythonRange_eq_nil offset (offset + limit) (by omega)
  constructor <;> simp [SampleApi.get_users, Refactored.get_users, hr]

/-- Witness for C9 at the concrete input `limit = -5`, `offset = 3`. -/
theorem C9_get_users_nonpositive_limit_witness :
    SampleApi.get_users (-5) 3 = [] ∧ Refactored.get_users (-5) 3 = [] :=
  C9_get_users_nonpositive_limit (-5) 3 (by decide)

/-- C5: after `add_user r` the store maps `r`'s id to `r` itself, even when a
record with that id was previously stored (latest insert wins), and `get_user`
on a key absent from the mapping returns an absent result. -/
theorem C5_store_add_get (s : SampleApi.Store) (r : Dict) (idv : Value) (k : String)
    (hid : alookup "id" r = some idv) :
    SampleApi.add_user r s = some (SampleApi.storeInsert idv r s)
    ∧ SampleApi.get_user idv (SampleApi.storeInsert idv r s) = some r
    ∧ (Value.vstr k ∉ s.map Prod.fst → SampleApi.get_user (Value.vstr k) s = none) := by
  refine ⟨by simp [SampleApi.add_user, hid], ?_, ?_⟩
  · exact SampleApi.alookup_storeInsert_self idv r s
  · intro hk
    exact SampleApi.alookup_eq_none_of_not_mem_keys _ _ hk

/-- Witness for C5: adding a record with id `"u1"` over a store that already
holds an older record under `"u1"` makes `get_user` return the new record,
and `get_user` on the missing key `"missing"` returns `none`. -/
theorem C5_store_add_get_witness :
    SampleApi.get_user (Value.vstr "u1")
      (SampleApi.storeInsert (Value.vstr "u1")
        [("id", Value.vstr "u1"), ("name", Value.vstr "A")]
        [(Value.vstr "u1", [("id", Value.vstr "u1")])]) =
      some [("id", Value.vstr "u1"), ("name", Value.vstr "A")]
    ∧ SampleApi.get_user (Value.vstr "missing")
        [(Value.vstr "u1", [("id", Value.vstr "u1")])] = none :=
  ⟨(C5_store_add_get [(Value.vstr "u1", [("id", Value.vstr "u1")])]
      [("id", Value.vstr "u1"), ("name", Value.vstr "A")]
      (Value.vstr "u1") "missing" (by decide)).2.1,
   (C5_store_add_get [(Value.vstr "u1", [("id", Value.vstr "u1")])]
      [("id", Value.vstr "u1"), ("name", Value.vstr "A")]
      (Value.vstr "u1") "missing" (by decide)).2.2 (by decide)⟩

/-- C7: the `UserService` store is empty on instantiation; every state
reachable by a finite sequence of `add_user` and `get_user` calls has at most
one entry per id (its key list has no duplicates); and a later `add_user` for
an id replaces the earlier record under that id. -/
theorem C7_store_invariant :
    SampleApi.initStore = ([] : SampleApi.Store)
    ∧ (∀ s : SampleApi.Store, Reachable s → ((s.map Prod.fst).Nodup))
    ∧ (∀ (s : SampleApi.Store) (idv : Value) (u : Dict),
         SampleApi.get_user idv (SampleApi.storeInsert idv u s) = some u) := by
  refine ⟨rfl, ?_, ?_⟩
  · intro s hs
    induction hs with
    | init => simp [SampleApi.initStore]
    | add hr hadd ih =>
      rename_i s₀ s' u
      simp only [SampleApi.add_user] at hadd
      cases hl : alookup "id" u with
      | none => simp [hl] at hadd
      | some idv =>
        simp only [hl] at hadd
        obtain rfl := Option.some.inj hadd
        exact SampleApi.nodup_keys_storeInsert idv u s₀ ih
  · intro s idv u
    exact SampleApi.alookup_storeInsert_self idv u s

/-- Witness for C7 at the initial state, reachable by the empty sequence of
operations. -/
theorem C7_store_invariant_witness :
    ((SampleApi.initStore.map Prod.fst).Nodup) :=
  C7_store_invariant.2.1 SampleApi.initStore Reachable.init

/-- C10: `add_user u` fails with a key-lookup error exactly when `u` lacks
the key `"id"`; when `"id"` is present it succeeds and every store entry
under a key different from `u`'s id is unchanged. -/
theorem C10_add_user_keyerror (u : Dict) (s : SampleApi.Store) :
    (SampleApi.add_user u s = none ↔ alookup "id" u = none)
    ∧ (∀ idv : Value, alookup "id" u = some idv →
        SampleApi.add_user u s = some (SampleApi.storeInsert idv u s)
        ∧ ∀ k : Value, k ≠ idv →
            SampleApi.get_user k (SampleApi.storeInsert idv u s) =
              SampleApi.get_user k s) := by
  constructor
  · cases hl : alookup "id" u <;> simp [SampleApi.add_user, hl]
  · intro idv hid
    refine ⟨by simp [SampleApi.add_user, hid], ?_⟩
    intro k hk
    exact SampleApi.alookup_storeInsert_ne idv k u s hk

/-- Witness for C10: adding a record without `"id"` fails; adding one with id
`"u1"` succeeds and leaves the binding of the unrelated key `"other"`
unchanged. -/
theorem C10_add_user_keyerror_witness :
    SampleApi.add_user [("name", Value.vstr "A")] [] = none
    ∧ SampleApi.add_user [("id", Value.vstr "u1")] [] =
        some (SampleApi.storeInsert (Value.vstr "u1") [("id", Value.vstr "u1")] [])
    ∧ SampleApi.get_user (Value.vstr "other")
        (SampleApi.storeInsert (Value.vstr "u1") [("id", Value.vstr "u1")] []) =
      SampleApi.get_user (Value.vstr "other") [] :=
  ⟨(C10_add_user_keyerror [("name", Value.vstr "A")] []).1.mpr (by decide),
   ((C10_add_user_keyerror [("id", Value.vstr "u1")] []).2 (Value.vstr "u1") (by decide)).1,
   ((C10_add_user_keyerror [("id", Value.vstr "u1")] []).2 (Value.vstr "u1") (by decide)).2
     (Value.vstr "other") (by decide)⟩

/-- Counterexample to C1 as stated: at `limit = 1`, `offset = 0`, the record
produced by `get_users` in `sample_api.py` binds `"id"` to the integer `0`
and not to the string `"0"`. -/
theorem C1_get_users_counterexample :
    (SampleApi.get_users 1 0).map (alookup "id") = [some (Value.vint 0)]
    ∧ [some (Value.vint 0)] ≠ [some (Value.vstr "0")] :=
  ⟨by decide, by decide⟩

/-- C1 (amended): for non-negative `limit` and `offset`, both `get_users`
return exactly `limit` records and the `i`-th record has name
`"User " + string(offset + i)` and no email populated; in the refactored file
its id is the string form of `offset + i`, while in `sample_api.py` its id is
the integer `offset + i` itself. -/
theorem C1_get_users_shape (limit offset : Int) (hl : 0 ≤ limit) (ho : 0 ≤ offset) :
    (SampleApi.get_users limit offset).length = limit.toNat
    ∧ (Refactored.get_users limit offset).length = limit.toNat
    ∧ (∀ (i : Nat) (h : i < (Refactored.get_users limit offset).length),
        (Refactored.get_users limit offset)[i] =
          { id := toString (offset + Int.ofNat i),
            name := "User " ++ toString (offset + Int.ofNat i), email := "" })
    ∧ (∀ (i : Nat) (h : i < (SampleApi.get_users limit offset).length),
        (SampleApi.get_users limit offset)[i] =
          [("id", Value.vint (offset + Int.ofNat i)),
           ("name", Value.vstr ("User " ++ toString (offset + Int.ofNat i)))]) := by
  have hlen : (pythonRange offset (offset + limit)).length = limit.toNat := by
    rw [pythonRange_length]; omega
  refine ⟨?_, ?_, ?_, ?_⟩
  · rw [SampleApi.get_users, List.length_map, hlen]
  · rw [Refactored.get_users, List.length_map, hlen]
  · intro i h
    simp only [Refactored.get_users, pythonRange, List.getElem_map, List.getElem_range]
  · intro i h
    simp only [SampleApi.get_users, pythonRange, List.getElem_map, List.getElem_range]

/-- Witness for C1 (amended) at `limit = 2`, `offset = 3`. -/
theorem C1_get_users_shape_witness :
    (SampleApi.get_users 2 3).length = (2 : Int).toNat
    ∧ (Refactored.get_users 2 3).length = (2 : Int).toNat :=
  ⟨(C1_get_users_shape 2 3 (by decide) (by decide)).1,
   (C1_get_users_shape 2 3 (by decide) (by decide)).2.1⟩

/-- Counterexample to C2 as stated: the two `get_users` do not return records
with equal `id` field values, already at `limit = 1`, `offset = 0`, where the
original binds `"id"` to the integer `0` and the refactored record has the
string id `"0"`. -/
theorem C2_refinement_counterexample :
    ¬ (∀ (limit offset : Int),
        List.Forall₂ dictMatchesUser (SampleApi.get_users limit offset)
          (Refactored.get_users limit offset)) := by
  intro h
  have h10 := h 1 0
  have e1 : SampleApi.get_users 1 0 =
      [[("id", Value.vint 0), ("name", Value.vstr "User 0")]] := by decide
  have e2 : Refactored.get_users 1 0 =
      [{ id := "0", name := "User 0", email := "" }] := by decide
  rw [e1, e2] at h10
  have hm : dictMatchesUser [("id", Value.vint 0), ("name", Value.vstr "User 0")]
      { id := "0", name := "User 0", email := "" } := by
    cases h10 with
    | cons hm _ => exact hm
  exact absurd hm.1 (by decide)

/-- C2 (amended): `get_user_by_id` and `post_create_user` of the refactored
file return records with exactly the same `id`, `name` and `email` field
values as the originals (dictionary shape replaced by the fixed-field record);
for `get_users` the correspondence additionally converts the original's
integer id to its decimal string form. -/
theorem C2_refactored_refinement :
    (∀ uid : String,
      (SampleApi.get_user_by_id uid = none ↔ Refactored.get_user_by_id uid = none)
      ∧ (∀ (d : Dict) (u : Refactored.User),
          SampleApi.get_user_by_id uid = some d →
          Refactored.get_user_by_id uid = some u → dictMatchesUser d u))
    ∧ (∀ name email : String,
        dictMatchesUser (SampleApi.post_create_user name email)
          (Refactored.post_create_user name email))
    ∧ (∀ limit offset : Int,
        List.Forall₂ dictMatchesUserIntId (SampleApi.get_users limit offset)
          (Refactored.get_users limit offset)) := by
  refine ⟨?_, ?_, ?_⟩
  · intro uid
    by_cases h : uid = "not_found"
    · refine ⟨by simp [SampleApi.get_user_by_id, Refactored.get_user_by_id, h], ?_⟩
      intro d u hd hu
      rw [SampleApi.get_user_by_id, if_pos h] at hd
      cases hd
    · refine ⟨by simp [SampleApi.get_user_by_id, Refactored.get_user_by_id, h], ?_⟩
      intro d u hd hu
      rw [SampleApi.get_user_by_id, if_neg h] at hd
      rw [Refactored.get_user_by_id, if_neg h] at hu
      obtain rfl := Option.some.inj hd
      obtain rfl := Option.some.inj hu
      exact ⟨rfl, rfl, Or.inl rfl⟩
  · intro name email
    exact ⟨rfl, rfl, Or.inl rfl⟩
  · intro limit offset
    rw [SampleApi.get_users, Refactored.get_users, List.forall₂_map_left_iff,
        List.forall₂_map_right_iff, List.forall₂_same]
    intro i _
    exact ⟨⟨i, rfl, rfl⟩, rfl, Or.inr ⟨rfl, rfl⟩⟩

/-- Witness for C2 (amended): the lookup correspondence at the concrete id
`"u1"`. -/
theorem C2_refactored_refinement_witness :
    dictMatchesUser
      [("id", Value.vstr "u1"), ("name", Value.vstr "Test User"),
       ("email", Value.vstr "test@example.com")]
      { id := "u1", name := "Test User", email := "test@example.com" } :=
  (C2_refactored_refinement.1 "u1").2
    [("id", Value.vstr "u1"), ("name", Value.vstr "Test User"),
     ("email", Value.vstr "test@example.com")]
    { id := "u1", name := "Test User", email := "test@example.com" }
    (by decide) (by decide)

/-- C8: the three top-level operations are deterministic pure functions: in
any execution history over the module's only mutable state, a call to one of
them produces the same output from any two store states and leaves the state
unchanged. -/
theorem C8_pure_operations (s₁ s₂ : SampleApi.Store) (c : ApiCall)
    (h : pureCall c = true) :
    (step s₁ c).2 = (step s₂ c).2 ∧ (step s₁ c).1 = s₁ := by
  cases c with
  | getUsers limit offset => exact ⟨rfl, rfl⟩
  | getUserById uid => exact ⟨rfl, rfl⟩
  | postCreateUser name email => exact ⟨rfl, rfl⟩
  | storeAdd u => simp [pureCall] at h
  | storeGet k => simp [pureCall] at h

/-- Witness for C8: a lookup call returns the same output over a populated
store as over the empty store. -/
theorem C8_pure_operations_witness :
    (step [(Value.vstr "u1", [("id", Value.vstr "u1")])]
      (ApiCall.getUserById "x")).2 = (step [] (ApiCall.getUserById "x")).2 :=
  (C8_pure_operations [(Value.vstr "u1", [("id", Value.vstr "u1")])] []
    (ApiCall.getUserById "x") (by decide)).1
